import Mathlib

/-!
Verification of the talent-service lifecycle and entitlement engine.

This file is a shallow embedding of the status/state-machine core of the
backend: the subscription entitlement engine (`subscriptionService`), the
admission-control service (`applicationService`), and the status-transition
branches of the student, company and admin controllers.  Entity collections
are lists of records, the Mongo store is a `Store` value threaded
explicitly, instants are integers (days), and each controller action is a
function from a store to a result together with the successor store.

Two revisions of the subscription service appear in the source; the later
revision carries the plain names below and the earlier one lives in
namespace `V1`.
-/

namespace Talent

/-- Subscription tier from the Student model (`subscriptionTier`). -/
inductive Tier : Type
  | free
  | paid
deriving DecidableEq, Repr

/-- Status enum of the JobPosting model. -/
inductive JobStatus : Type
  | draft
  | pending
  | approved
  | rejected
  | unpublished
  | closed
deriving DecidableEq, Repr

/-- Status enum of the Application model. -/
inductive AppStatus : Type
  | pending
  | reviewed
  | hired
  | rejected
  | withdrawn
deriving DecidableEq, Repr

/-- Status enum of the ActiveSubscription model. -/
inductive SubStatus : Type
  | pending
  | active
  | expired
  | cancelled
deriving DecidableEq, Repr

/-- Student row: `_id`, the owning user account, hire flag and the
subscription reference fields. -/
structure Student : Type where
  id : Nat
  userId : Nat
  isHired : Bool
  currentSubscriptionId : Option Nat
  subscriptionTier : Tier
deriving DecidableEq, Repr

/-- Company row (only the fields the lifecycle code reads). -/
structure Company : Type where
  id : Nat
  userId : Nat
deriving DecidableEq, Repr

/-- JobPosting row restricted to the lifecycle fields. -/
structure JobPosting : Type where
  id : Nat
  companyId : Nat
  status : JobStatus
  rejectionReason : Option String
  approvedAt : Option Int
deriving DecidableEq, Repr

/-- Application row. -/
structure Application : Type where
  id : Nat
  studentId : Nat
  jobPostingId : Nat
  status : AppStatus
  rejectionReason : Option String
  rejectionSource : Option String
  reviewedAt : Option Int
  createdAt : Int
deriving DecidableEq, Repr

/-- ActiveSubscription row; `serviceId` references the purchased plan. -/
structure ActiveSubscription : Type where
  id : Nat
  studentId : Nat
  serviceId : Nat
  endDate : Int
  status : SubStatus
deriving DecidableEq, Repr

/-- AvailableService (plan) row; `maxApplications` is nullable
(null = unlimited). -/
structure Plan : Type where
  id : Nat
  maxApplications : Option Nat
deriving DecidableEq, Repr

/-- The entity store: one list per collection, the system-config value for
the free-tier quota, and the id the next created Application receives. -/
structure Store : Type where
  students : List Student
  companies : List Company
  jobs : List JobPosting
  applications : List Application
  subs : List ActiveSubscription
  plans : List Plan
  freeTierConfig : Option Nat
  nextAppId : Nat
deriving DecidableEq, Repr

/-- `Student.findById`. -/
def findStudentById (st : Store) (studentId : Nat) : Option Student :=
  st.students.find? (fun s => s.id == studentId)

/-- `Student.findOne({ userId })`. -/
def findStudentByUserId (st : Store) (userId : Nat) : Option Student :=
  st.students.find? (fun s => s.userId == userId)

/-- `Company.findOne({ userId })`. -/
def findCompanyByUserId (st : Store) (userId : Nat) : Option Company :=
  st.companies.find? (fun c => c.userId == userId)

/-- `JobPosting.findById`. -/
def findJobById (st : Store) (jobId : Nat) : Option JobPosting :=
  st.jobs.find? (fun j => j.id == jobId)

/-- `JobPosting.findOne({ _id: jobId, status: 'approved' })`. -/
def findApprovedJob (st : Store) (jobId : Nat) : Option JobPosting :=
  st.jobs.find? (fun j => j.id == jobId && j.status == JobStatus.approved)

/-- `Application.findById`. -/
def findAppById (st : Store) (appId : Nat) : Option Application :=
  st.applications.find? (fun a => a.id == appId)

/-- `ActiveSubscription.findById`. -/
def findSubById (st : Store) (subId : Nat) : Option ActiveSubscription :=
  st.subs.find? (fun b => b.id == subId)

/-- `Application.findOne({ studentId, jobPostingId })`. -/
def findExistingApplication (st : Store) (studentId jobId : Nat) :
    Option Application :=
  st.applications.find?
    (fun a => a.studentId == studentId && a.jobPostingId == jobId)

/-- JS truthiness of `subscription?.serviceId?.maxApplications` after
`populate`: resolves the plan and yields its `maxApplications` when that
value is truthy (present and nonzero). -/
def truthyMaxApplications (st : Store) (sub : ActiveSubscription) :
    Option Nat :=
  match st.plans.find? (fun p => p.id == sub.serviceId) with
  | some p =>
    match p.maxApplications with
    | some m => if m == 0 then none else some m
    | none => none
  | none => none

/-- JS `value || null` on an optional string: the empty string is falsy. -/
def jsOrNull (s : Option String) : Option String :=
  match s with
  | some v => if v == "" then none else some v
  | none => none

/-- `SUBSCRIPTION_GRACE_PERIOD_DAYS` (both revisions). -/
def SUBSCRIPTION_GRACE_PERIOD_DAYS : Int := 3

/-- `DEFAULT_FREE_TIER_MAX_APPLICATIONS` (later revision; the earlier
revision hard-codes the same value as `FREE_TIER_MAX_APPLICATIONS`). -/
def DEFAULT_FREE_TIER_MAX_APPLICATIONS : Nat := 2

/-- `toGracePeriodEnd`: `endDate` plus the grace-period day count. -/
def toGracePeriodEnd (endDate : Int) : Int :=
  endDate + SUBSCRIPTION_GRACE_PERIOD_DAYS

/-- `getFreeTierMaxApplications`: `SystemConfig.getValue(key, default)`. -/
def getFreeTierMaxApplications (st : Store) : Nat :=
  st.freeTierConfig.getD DEFAULT_FREE_TIER_MAX_APPLICATIONS

/-- Result shape of `checkSubscriptionStatus`; `status = none` models the
string `'free'`, otherwise the subscription's status is reported. -/
structure EntitlementResult : Type where
  tier : Tier
  status : Option SubStatus
  isActive : Bool
  inGracePeriod : Bool
  subscription : Option ActiveSubscription
deriving DecidableEq, Repr

/-- The free-tier result returned when no subscription is in play. -/
def freeEntitlement : EntitlementResult :=
  ⟨Tier.free, none, true, false, none⟩

/-- The engine's local `inGracePeriod`:
`subscription.endDate < now && now <= gracePeriodEnd`. -/
def subInGracePeriod (sub : ActiveSubscription) (now : Int) : Bool :=
  decide (sub.endDate < now) && decide (now ≤ toGracePeriodEnd sub.endDate)

/-- The engine's local `isActive`:
`status === 'active' && (endDate >= now || inGracePeriod)`. -/
def subIsActive (sub : ActiveSubscription) (now : Int) : Bool :=
  (sub.status == SubStatus.active) &&
    (decide (sub.endDate ≥ now) || subInGracePeriod sub now)

/-- `checkSubscriptionStatus` (identical logic in both revisions): resolves
the student's current subscription, computes grace-period and activity
flags, and lazily persists `expired` when the subscription has lapsed past
grace.  Returns the result together with the successor store. -/
def checkSubscriptionStatus (st : Store) (now : Int) (studentId : Nat) :
    EntitlementResult × Store :=
  match findStudentById st studentId with
  | none => (freeEntitlement, st)
  | some student =>
    match student.currentSubscriptionId with
    | none => (freeEntitlement, st)
    | some subId =>
      match findSubById st subId with
      | none =>
        (freeEntitlement,
          { st with students := st.students.map (fun s =>
              if s.id == studentId then
                { s with currentSubscriptionId := none,
                         subscriptionTier := Tier.free }
              else s) })
      | some sub =>
        if sub.status == SubStatus.cancelled then
          (⟨Tier.paid, some SubStatus.cancelled, false, false, some sub⟩, st)
        else
          let inGracePeriod := subInGracePeriod sub now
          let isActive := subIsActive sub now
          if !isActive && !(sub.status == SubStatus.expired) &&
              decide (sub.endDate < now) then
            (⟨Tier.paid, some SubStatus.expired, isActive, inGracePeriod,
                some { sub with status := SubStatus.expired }⟩,
              { st with subs := st.subs.map (fun b =>
                  if b.id == sub.id then { b with status := SubStatus.expired }
                  else b) })
          else
            (⟨Tier.paid, some sub.status, isActive, inGracePeriod, some sub⟩,
              st)

/-- `getApplicationLimit` (later revision): paid-tier students get the
plan's `maxApplications` when one resolves truthily, otherwise `Infinity`
(modelled as `none`); everyone else gets the configured free-tier default. -/
def getApplicationLimit (st : Store) (studentId : Nat) : Option Nat :=
  match findStudentById st studentId with
  | some student =>
    if student.subscriptionTier == Tier.paid then
      match student.currentSubscriptionId with
      | some subId =>
        match findSubById st subId with
        | some sub =>
          match truthyMaxApplications st sub with
          | some m => some m
          | none => none
        | none => none
      | none => none
    else some (getFreeTierMaxApplications st)
  | none => some (getFreeTierMaxApplications st)

namespace V1

/-- `getApplicationLimit` (earlier revision): the plan limit applies only
when `checkSubscriptionStatus` reports the subscription active and the plan
resolves a truthy `maxApplications`; every other case falls back to the
hard-coded free-tier constant — this revision never returns `Infinity`. -/
def getApplicationLimit (st : Store) (now : Int) (studentId : Nat) :
    Option Nat × Store :=
  let rs := checkSubscriptionStatus st now studentId
  match
    (if rs.1.isActive then
      rs.1.subscription.bind (fun sub => truthyMaxApplications st sub)
    else none) with
  | some m => (some m, rs.2)
  | none => (some DEFAULT_FREE_TIER_MAX_APPLICATIONS, rs.2)

end V1

/-! ### applicationService -/

/-- Denial reasons returned by `canApply`. -/
inductive DenyReason : Type
  | not_found
  | hired
  | limit
deriving DecidableEq, Repr

/-- Result shape of `canApply`.  `applicationsUsed`/`applicationLimit` are
absent (`none`) on the `not_found`/`hired` paths; an inner `none` in
`applicationLimit` models the JS `Infinity`. -/
structure CanApplyResult : Type where
  canApply : Bool
  reason : Option DenyReason
  applicationsUsed : Option Nat
  applicationLimit : Option (Option Nat)
deriving DecidableEq, Repr

/-- `getActiveApplicationCount`: count of the student's applications whose
status is not in `NON_COUNTABLE_STATUSES = ['withdrawn', 'rejected']`. -/
def getActiveApplicationCount (st : Store) (studentId : Nat) : Nat :=
  (st.applications.filter (fun a =>
    a.studentId == studentId &&
    !(a.status == AppStatus.withdrawn) &&
    !(a.status == AppStatus.rejected))).length

/-- `canApply`: admission control for a new application — missing student
and hired student are denied outright, an unbounded limit always admits,
otherwise admission requires `used < limit`. -/
def canApply (st : Store) (studentId : Nat) : CanApplyResult :=
  match findStudentById st studentId with
  | none => ⟨false, some DenyReason.not_found, none, none⟩
  | some student =>
    if student.isHired then ⟨false, some DenyReason.hired, none, none⟩
    else
      match getApplicationLimit st studentId with
      | none =>
        ⟨true, none, some (getActiveApplicationCount st studentId), some none⟩
      | some l =>
        let used := getActiveApplicationCount st studentId
        if used ≥ l then
          ⟨false, some DenyReason.limit, some used, some (some l)⟩
        else
          ⟨true, none, some used, some (some l)⟩

/-! ### studentController.applyToJob -/

/-- Outcomes of the `applyToJob` controller. -/
inductive ApplyOutcome : Type
  | studentNotFound
  | hiredForbidden
  | limitReached
  | alreadyApplied
  | jobNotFound
  | ok (app : Application)
deriving DecidableEq, Repr

/-- `applyToJob`: guards (student exists, not hired, free-tier quota),
duplicate check against the compound key, approved-job lookup, then either
resets a withdrawn row to a fresh `pending` cycle or creates a new row. -/
def applyToJob (st : Store) (now : Int) (userId jobId : Nat) :
    ApplyOutcome × Store :=
  match findStudentByUserId st userId with
  | none => (ApplyOutcome.studentNotFound, st)
  | some student =>
    if student.isHired then (ApplyOutcome.hiredForbidden, st)
    else
      let activeApplications := getActiveApplicationCount st student.id
      if !(student.subscriptionTier == Tier.paid) && activeApplications ≥ 2 then
        (ApplyOutcome.limitReached, st)
      else
        match findExistingApplication st student.id jobId with
        | some existingApp =>
          if !(existingApp.status == AppStatus.withdrawn) then
            (ApplyOutcome.alreadyApplied, st)
          else
            match findApprovedJob st jobId with
            | none => (ApplyOutcome.jobNotFound, st)
            | some _ =>
              let reset := { existingApp with
                status := AppStatus.pending,
                rejectionReason := none,
                reviewedAt := none,
                createdAt := now }
              (ApplyOutcome.ok reset,
                { st with applications := st.applications.map (fun a =>
                    if a.id == existingApp.id then reset else a) })
        | none =>
          match findApprovedJob st jobId with
          | none => (ApplyOutcome.jobNotFound, st)
          | some _ =>
            let created : Application :=
              ⟨st.nextAppId, student.id, jobId, AppStatus.pending,
                none, none, none, now⟩
            (ApplyOutcome.ok created,
              { st with
                applications := st.applications ++ [created],
                nextAppId := st.nextAppId + 1 })

/-! ### companyController: closeJob, updateJob status phase,
updateApplication -/

/-- The cascade run when a job is closed: every `pending`/`reviewed`
application on the job is bulk-rejected with the closure reason. -/
def rejectApplicationsForClosedJob (apps : List Application) (jobId : Nat) :
    List Application :=
  apps.map (fun a =>
    if a.jobPostingId == jobId &&
        (a.status == AppStatus.pending || a.status == AppStatus.reviewed) then
      { a with status := AppStatus.rejected,
               rejectionReason := some "Job posting has been closed" }
    else a)

/-- Outcomes of the `closeJob` controller. -/
inductive CloseOutcome : Type
  | companyNotFound
  | jobNotFound
  | forbidden
  | alreadyClosed
  | draftNotClosable
  | ok
deriving DecidableEq, Repr

/-- `closeJob`: ownership guard, then closing is refused for already-closed
and draft jobs; otherwise the job goes to `closed` and the application
cascade runs. -/
def closeJob (st : Store) (userId jobId : Nat) : CloseOutcome × Store :=
  match findCompanyByUserId st userId with
  | none => (CloseOutcome.companyNotFound, st)
  | some company =>
    match findJobById st jobId with
    | none => (CloseOutcome.jobNotFound, st)
    | some job =>
      if !(job.companyId == company.id) then (CloseOutcome.forbidden, st)
      else if job.status == JobStatus.closed then
        (CloseOutcome.alreadyClosed, st)
      else if job.status == JobStatus.draft then
        (CloseOutcome.draftNotClosable, st)
      else
        (CloseOutcome.ok,
          { st with
            jobs := st.jobs.map (fun j =>
              if j.id == jobId then { j with status := JobStatus.closed }
              else j),
            applications :=
              rejectApplicationsForClosedJob st.applications jobId })

/-- Outcomes of the status-handling phase of the company `updateJob`
controller. -/
inductive CompanyUpdateJobOutcome : Type
  | companyNotFound
  | jobNotFound
  | forbidden
  | alreadyClosed
  | draftNotClosable
  | closedOk
  | unpublishNotApproved
  | unpublishedOk
  | republishedOk
  | editForbidden
  | proceedsToEdit
deriving DecidableEq, Repr

/-- Status-handling phase of the company `updateJob` controller
(companyController.js lines 241–327): the close / unpublish / republish
branches and the guard that restricts the remaining field-edit path to
`draft`/`pending` jobs.  The subsequent field-edit path (not embedded here)
only ever changes `status` when submitting a draft for review, setting it
to `pending`. -/
def companyUpdateJobStatusPhase (st : Store) (userId jobId : Nat)
    (reqStatus : Option JobStatus) : CompanyUpdateJobOutcome × Store :=
  match findCompanyByUserId st userId with
  | none => (CompanyUpdateJobOutcome.companyNotFound, st)
  | some company =>
    match findJobById st jobId with
    | none => (CompanyUpdateJobOutcome.jobNotFound, st)
    | some job =>
      if !(job.companyId == company.id) then
        (CompanyUpdateJobOutcome.forbidden, st)
      else if reqStatus == some JobStatus.closed then
        if job.status == JobStatus.closed then
          (CompanyUpdateJobOutcome.alreadyClosed, st)
        else if job.status == JobStatus.draft then
          (CompanyUpdateJobOutcome.draftNotClosable, st)
        else
          (CompanyUpdateJobOutcome.closedOk,
            { st with
              jobs := st.jobs.map (fun j =>
                if j.id == jobId then { j with status := JobStatus.closed }
                else j),
              applications :=
                rejectApplicationsForClosedJob st.applications jobId })
      else if reqStatus == some JobStatus.unpublished then
        if !(job.status == JobStatus.approved) then
          (CompanyUpdateJobOutcome.unpublishNotApproved, st)
        else
          (CompanyUpdateJobOutcome.unpublishedOk,
            { st with jobs := st.jobs.map (fun j =>
                if j.id == jobId then { j with status := JobStatus.unpublished }
                else j) })
      else if reqStatus == some JobStatus.pending &&
          job.status == JobStatus.unpublished then
        (CompanyUpdateJobOutcome.republishedOk,
          { st with jobs := st.jobs.map (fun j =>
              if j.id == jobId then
                { j with status := JobStatus.pending,
                         approvedAt := none,
                         rejectionReason := none }
              else j) })
      else if !(job.status == JobStatus.pending) &&
          !(job.status == JobStatus.draft) then
        (CompanyUpdateJobOutcome.editForbidden, st)
      else
        (CompanyUpdateJobOutcome.proceedsToEdit, st)

/-- Outcomes of the company `updateApplication` controller. -/
inductive CompanyUpdateAppOutcome : Type
  | invalidStatus
  | companyNotFound
  | appNotFound
  | jobMissing
  | forbidden
  | notYetReviewed
  | alreadyProcessed
  | withdrawnForbidden
  | ok
deriving DecidableEq, Repr

/-- Company `updateApplication`: only `hired`/`rejected` requests pass the
body check; ownership is checked through the application's job; the action
is only applied to a `reviewed` application, setting its status and
`reviewedAt = now`, and a hire additionally flips the student's `isHired`
flag. -/
def companyUpdateApplication (st : Store) (now : Int) (userId appId : Nat)
    (reqStatus : AppStatus) : CompanyUpdateAppOutcome × Store :=
  if !(reqStatus == AppStatus.hired) && !(reqStatus == AppStatus.rejected) then
    (CompanyUpdateAppOutcome.invalidStatus, st)
  else
    match findCompanyByUserId st userId with
    | none => (CompanyUpdateAppOutcome.companyNotFound, st)
    | some company =>
      match findAppById st appId with
      | none => (CompanyUpdateAppOutcome.appNotFound, st)
      | some application =>
        match findJobById st application.jobPostingId with
        | none => (CompanyUpdateAppOutcome.jobMissing, st)
        | some job =>
          if !(job.companyId == company.id) then
            (CompanyUpdateAppOutcome.forbidden, st)
          else if application.status == AppStatus.pending then
            (CompanyUpdateAppOutcome.notYetReviewed, st)
          else if application.status == AppStatus.hired ||
              application.status == AppStatus.rejected then
            (CompanyUpdateAppOutcome.alreadyProcessed, st)
          else if application.status == AppStatus.withdrawn then
            (CompanyUpdateAppOutcome.withdrawnForbidden, st)
          else
            let st1 := { st with applications := st.applications.map (fun a =>
              if a.id == appId then
                { a with status := reqStatus, reviewedAt := some now }
              else a) }
            if reqStatus == AppStatus.hired then
              (CompanyUpdateAppOutcome.ok,
                { st1 with students := st1.students.map (fun s =>
                    if s.id == application.studentId then
                      { s with isHired := true }
                    else s) })
            else (CompanyUpdateAppOutcome.ok, st1)

/-! ### admin controller: updateJob, updateApplication -/

/-- Outcomes of the admin `updateJob` controller. -/
inductive AdminUpdateJobOutcome : Type
  | jobNotFound
  | ok
deriving DecidableEq, Repr

/-- The `updateFields` patch built by the admin `updateJob` controller:
the requested status is always written; `approved`/`rejected`/`pending`
additionally adjust `approvedAt` and `rejectionReason`, while a close keeps
both fields. -/
def adminJobUpdateFields (now : Int) (reqStatus : JobStatus)
    (reqReason : Option String) (j : JobPosting) : JobPosting :=
  match reqStatus with
  | JobStatus.approved =>
    { j with status := JobStatus.approved, approvedAt := some now,
             rejectionReason := none }
  | JobStatus.rejected =>
    { j with status := JobStatus.rejected,
             rejectionReason := jsOrNull reqReason, approvedAt := none }
  | JobStatus.pending =>
    { j with status := JobStatus.pending, approvedAt := none }
  | other => { j with status := other }

/-- Admin `updateJob`: after the `updateJobStatusSchema` body check (which
admits every member of the job-status enum) the requested status is applied
unconditionally via `adminJobUpdateFields`, and a close additionally runs
the application cascade. -/
def adminUpdateJob (st : Store) (now : Int) (jobId : Nat)
    (reqStatus : JobStatus) (reqReason : Option String) :
    AdminUpdateJobOutcome × Store :=
  match findJobById st jobId with
  | none => (AdminUpdateJobOutcome.jobNotFound, st)
  | some _ =>
    let st1 := { st with jobs := st.jobs.map (fun j =>
      if j.id == jobId then adminJobUpdateFields now reqStatus reqReason j
      else j) }
    if reqStatus == JobStatus.closed then
      (AdminUpdateJobOutcome.ok,
        { st1 with applications :=
            rejectApplicationsForClosedJob st1.applications jobId })
    else (AdminUpdateJobOutcome.ok, st1)

/-- Admin application actions admitted by `adminUpdateApplicationSchema`. -/
inductive AdminAppAction : Type
  | reviewed
  | rejected
deriving DecidableEq, Repr

/-- Outcomes of the admin `updateApplication` controller. -/
inductive AdminUpdateAppOutcome : Type
  | appNotFound
  | withdrawnForbidden
  | hiredForbidden
  | ok
deriving DecidableEq, Repr

/-- Admin `updateApplication`: refuses `withdrawn` and `hired` rows; a
review sets `reviewedAt = now` and clears the rejection fields, a rejection
stores the (truthy) reason with source `admin` and leaves `reviewedAt`
untouched. -/
def adminUpdateApplication (st : Store) (now : Int) (appId : Nat)
    (action : AdminAppAction) (reqReason : Option String) :
    AdminUpdateAppOutcome × Store :=
  match findAppById st appId with
  | none => (AdminUpdateAppOutcome.appNotFound, st)
  | some application =>
    if application.status == AppStatus.withdrawn then
      (AdminUpdateAppOutcome.withdrawnForbidden, st)
    else if application.status == AppStatus.hired then
      (AdminUpdateAppOutcome.hiredForbidden, st)
    else
      let upd : Application → Application := fun a =>
        match action with
        | AdminAppAction.reviewed =>
          { a with status := AppStatus.reviewed, reviewedAt := some now,
                   rejectionReason := none, rejectionSource := none }
        | AdminAppAction.rejected =>
          { a with status := AppStatus.rejected,
                   rejectionReason := jsOrNull reqReason,
                   rejectionSource := some "admin" }
      (AdminUpdateAppOutcome.ok,
        { st with applications := st.applications.map (fun a =>
            if a.id == appId then upd a else a) })

/-! ## Theorems -/

/-- C1: for an existing, non-hired student, `canApply` reports
`applicationsUsed` as the count of applications outside
{withdrawn, rejected}, resolves the limit via `getApplicationLimit`,
always admits on an unbounded limit, otherwise admits exactly when
`used < limit` and denies with reason `limit`; a missing student is denied
with `not_found` and a hired student with `hired`. -/
theorem canApply_spec (st : Store) (studentId : Nat) :
    (findStudentById st studentId = none →
      canApply st studentId = ⟨false, some DenyReason.not_found, none, none⟩) ∧
    (∀ student, findStudentById st studentId = some student →
      student.isHired = true →
      canApply st studentId = ⟨false, some DenyReason.hired, none, none⟩) ∧
    (∀ student, findStudentById st studentId = some student →
      student.isHired = false →
      (canApply st studentId).applicationsUsed =
        some (getActiveApplicationCount st studentId) ∧
      (canApply st studentId).applicationLimit =
        some (getApplicationLimit st studentId) ∧
      (getApplicationLimit st studentId = none →
        (canApply st studentId).canApply = true) ∧
      (∀ n, getApplicationLimit st studentId = some n →
        ((canApply st studentId).canApply = true ↔
          getActiveApplicationCount st studentId < n)) ∧
      ((canApply st studentId).canApply = false →
        (canApply st studentId).reason = some DenyReason.limit)) := by
  refine ⟨?_, ?_, ?_⟩
  · intro h
    simp [canApply, h]
  · intro student h hh
    simp [canApply, h, hh]
  · intro student h hh
    simp only [canApply, h, hh, Bool.false_eq_true, if_false]
    cases hl : getApplicationLimit st studentId with
    | none => simp
    | some l =>
      by_cases hcmp : getActiveApplicationCount st studentId ≥ l
      all_goals simp [hcmp]
      all_goals omega

/-- Concrete store with one free-tier student (id 1, user 11) and one of
each application status, used as the C1 witness input. -/
def StoreW1 : Store :=
  { students := [⟨1, 11, false, none, Tier.free⟩],
    companies := [],
    jobs := [],
    applications :=
      [⟨1, 1, 1, AppStatus.pending, none, none, none, 0⟩,
       ⟨2, 1, 2, AppStatus.withdrawn, none, none, none, 0⟩,
       ⟨3, 1, 3, AppStatus.rejected, none, none, none, 0⟩],
    subs := [],
    plans := [],
    freeTierConfig := none,
    nextAppId := 10 }

/-- Witness for C1: the free student with one pending, one withdrawn and
one rejected application has `used = 1 < 2 = limit` and is admitted. -/
theorem canApply_spec_witness :
    findStudentById StoreW1 1 = some ⟨1, 11, false, none, Tier.free⟩ ∧
    getActiveApplicationCount StoreW1 1 = 1 ∧
    getApplicationLimit StoreW1 1 = some 2 ∧
    (canApply StoreW1 1).canApply = true := by
  refine ⟨by decide, by decide, by decide, ?_⟩
  have h := (canApply_spec StoreW1 1).2.2 ⟨1, 11, false, none, Tier.free⟩
    (by decide) (by decide)
  exact (h.2.2.2.1 2 (by decide)).mpr (by decide)

/-- The closure cascade is the pointwise conditional rejection of exactly
the pending/reviewed applications on the closed job. -/
theorem rejectApplicationsForClosedJob_eq (apps : List Application)
    (jobId : Nat) :
    rejectApplicationsForClosedJob apps jobId = apps.map (fun a =>
      if a.jobPostingId = jobId ∧
          (a.status = AppStatus.pending ∨ a.status = AppStatus.reviewed) then
        { a with status := AppStatus.rejected,
                 rejectionReason := some "Job posting has been closed" }
      else a) := by
  unfold rejectApplicationsForClosedJob
  apply List.map_congr_left
  intro a _
  by_cases h1 : a.jobPostingId = jobId
  · by_cases h2 : a.status = AppStatus.pending ∨ a.status = AppStatus.reviewed
    · rcases h2 with h2 | h2 <;> simp [h1, h2]
    · push_neg at h2
      simp [h1, h2.1, h2.2]
  · simp [h1]

/-- Closing a job rewrites exactly the rows with the job's id to
`closed`. -/
theorem closeJobs_map_eq (jobs : List JobPosting) (jobId : Nat) :
    jobs.map (fun j =>
      if j.id == jobId then { j with status := JobStatus.closed } else j) =
    jobs.map (fun j =>
      if j.id = jobId then { j with status := JobStatus.closed } else j) := by
  apply List.map_congr_left
  intro j _
  by_cases h : j.id = jobId <;> simp [h]

/-- On a close request the admin patch only touches the status field. -/
theorem adminJobUpdateFields_closed (now : Int) (reason : Option String)
    (j : JobPosting) :
    adminJobUpdateFields now JobStatus.closed reason j =
      { j with status := JobStatus.closed } := rfl

/-- C2: closing an approved, unpublished or pending job — through the
company `closeJob` controller or the admin `updateJob` controller — sets
the job's status to `closed` and bulk-rejects exactly the pending/reviewed
applications on that job with reason "Job posting has been closed",
leaving withdrawn, hired and already-rejected rows unchanged. -/
theorem closeJob_cascade (st : Store) (userId jobId : Nat)
    (company : Company) (job : JobPosting)
    (hc : findCompanyByUserId st userId = some company)
    (hj : findJobById st jobId = some job)
    (hown : job.companyId = company.id)
    (hst : job.status = JobStatus.approved ∨
      job.status = JobStatus.unpublished ∨ job.status = JobStatus.pending) :
    (closeJob st userId jobId).1 = CloseOutcome.ok ∧
    (closeJob st userId jobId).2.jobs = st.jobs.map (fun j =>
      if j.id = jobId then { j with status := JobStatus.closed } else j) ∧
    (closeJob st userId jobId).2.applications = st.applications.map (fun a =>
      if a.jobPostingId = jobId ∧
          (a.status = AppStatus.pending ∨ a.status = AppStatus.reviewed) then
        { a with status := AppStatus.rejected,
                 rejectionReason := some "Job posting has been closed" }
      else a) ∧
    (∀ now reason,
      (adminUpdateJob st now jobId JobStatus.closed reason).1 =
        AdminUpdateJobOutcome.ok ∧
      (adminUpdateJob st now jobId JobStatus.closed reason).2.jobs =
        st.jobs.map (fun j =>
          if j.id = jobId then { j with status := JobStatus.closed } else j) ∧
      (adminUpdateJob st now jobId JobStatus.closed reason).2.applications =
        st.applications.map (fun a =>
          if a.jobPostingId = jobId ∧
              (a.status = AppStatus.pending ∨ a.status = AppStatus.reviewed)
          then
            { a with status := AppStatus.rejected,
                     rejectionReason := some "Job posting has been closed" }
          else a)) := by
  have hne1 : (job.status == JobStatus.closed) = false := by
    rcases hst with h | h | h <;> simp [h]
  have hne2 : (job.status == JobStatus.draft) = false := by
    rcases hst with h | h | h <;> simp [h]
  refine ⟨?_, ?_, ?_, ?_⟩
  · simp [closeJob, hc, hj, hown, hne1, hne2]
  · simp [closeJob, hc, hj, hown, hne1, hne2, closeJobs_map_eq]
  · simp [closeJob, hc, hj, hown, hne1, hne2,
      rejectApplicationsForClosedJob_eq]
  · intro now reason
    refine ⟨?_, ?_, ?_⟩
    · simp [adminUpdateJob, hj]
    · simp [adminUpdateJob, hj, adminJobUpdateFields_closed,
        closeJobs_map_eq]
    · simp [adminUpdateJob, hj, rejectApplicationsForClosedJob_eq]

/-- Concrete store for the C2 witness: one approved job owned by company 1
with one application in every status, plus a pending application on an
unrelated job. -/
def StoreW2 : Store :=
  { students := [],
    companies := [⟨1, 21⟩],
    jobs := [⟨1, 1, JobStatus.approved, none, some 0⟩],
    applications :=
      [⟨1, 1, 1, AppStatus.pending, none, none, none, 0⟩,
       ⟨2, 2, 1, AppStatus.reviewed, none, none, some 0, 0⟩,
       ⟨3, 3, 1, AppStatus.withdrawn, none, none, none, 0⟩,
       ⟨4, 4, 1, AppStatus.hired, none, none, some 0, 0⟩,
       ⟨5, 5, 1, AppStatus.rejected, some "no", none, none, 0⟩,
       ⟨6, 1, 2, AppStatus.pending, none, none, none, 0⟩],
    subs := [],
    plans := [],
    freeTierConfig := none,
    nextAppId := 10 }

/-- Witness for C2 at a concrete store: the close succeeds. -/
theorem closeJob_cascade_witness :
    findCompanyByUserId StoreW2 21 = some ⟨1, 21⟩ ∧
    findJobById StoreW2 1 = some ⟨1, 1, JobStatus.approved, none, some 0⟩ ∧
    (closeJob StoreW2 21 1).1 = CloseOutcome.ok :=
  ⟨by decide, by decide,
    (closeJob_cascade StoreW2 21 1 ⟨1, 21⟩
      ⟨1, 1, JobStatus.approved, none, some 0⟩
      (by decide) (by decide) rfl (Or.inl rfl)).1⟩

/-- C3: for a (student, job) pair that already has an application row and a
request passing the admission guards, a withdrawn row is reset in place to
a fresh pending cycle (same row, no new row), while any other existing row
makes `applyToJob` fail as a conflict without touching the store. -/
theorem applyToJob_existing_row (st : Store) (now : Int) (userId jobId : Nat)
    (student : Student) (existingApp : Application)
    (hs : findStudentByUserId st userId = some student)
    (hh : student.isHired = false)
    (hq : student.subscriptionTier = Tier.paid ∨
      getActiveApplicationCount st student.id < 2)
    (he : findExistingApplication st student.id jobId = some existingApp) :
    (existingApp.status ≠ AppStatus.withdrawn →
      applyToJob st now userId jobId = (ApplyOutcome.alreadyApplied, st)) ∧
    (existingApp.status = AppStatus.withdrawn →
      ∀ job, findApprovedJob st jobId = some job →
        applyToJob st now userId jobId =
          (ApplyOutcome.ok
            { existingApp with
              status := AppStatus.pending,
              rejectionReason := none,
              reviewedAt := none,
              createdAt := now },
           { st with applications := st.applications.map (fun a =>
               if a.id = existingApp.id then
                 { existingApp with
                   status := AppStatus.pending,
                   rejectionReason := none,
                   reviewedAt := none,
                   createdAt := now }
               else a) }) ∧
        (applyToJob st now userId jobId).2.applications.length =
          st.applications.length) := by
  have hqb : (!(student.subscriptionTier == Tier.paid) &&
      decide (getActiveApplicationCount st student.id ≥ 2)) = false := by
    rcases hq with h | h <;> simp [h]
  constructor
  · intro hw
    simp [applyToJob, hs, hh, hqb, he, hw]
  · intro hw job hj
    have hmap : (st.applications.map (fun a =>
        if a.id == existingApp.id then
          { existingApp with
            status := AppStatus.pending,
            rejectionReason := none,
            reviewedAt := none,
            createdAt := now }
        else a)) = st.applications.map (fun a =>
        if a.id = existingApp.id then
          { existingApp with
            status := AppStatus.pending,
            rejectionReason := none,
            reviewedAt := none,
            createdAt := now }
        else a) := by
      apply List.map_congr_left
      intro a _
      by_cases h : a.id = existingApp.id <;> simp [h]
    constructor
    · simp only [applyToJob, hs, hh, hqb, he, hw, hj]
      simp [hmap]
    · simp [applyToJob, hs, hh, hqb, he, hw, hj]

/-- Concrete store for the C3 witness: free-tier student 1 (user 11) with a
withdrawn application on approved job 1. -/
def StoreW3 : Store :=
  { students := [⟨1, 11, false, none, Tier.free⟩],
    companies := [⟨1, 21⟩],
    jobs := [⟨1, 1, JobStatus.approved, none, some 0⟩],
    applications :=
      [⟨7, 1, 1, AppStatus.withdrawn, some "was withdrawn", none, some 3, 2⟩],
    subs := [],
    plans := [],
    freeTierConfig := none,
    nextAppId := 10 }

/-- Witness for C3: re-applying to the withdrawn row resets it in place. -/
theorem applyToJob_existing_row_witness :
    findExistingApplication StoreW3 1 1 =
      some ⟨7, 1, 1, AppStatus.withdrawn, some "was withdrawn", none,
        some 3, 2⟩ ∧
    applyToJob StoreW3 9 11 1 =
      (ApplyOutcome.ok ⟨7, 1, 1, AppStatus.pending, none, none, none, 9⟩,
       { StoreW3 with applications :=
          [⟨7, 1, 1, AppStatus.pending, none, none, none, 9⟩] }) := by
  constructor
  · decide
  · have h := (applyToJob_existing_row StoreW3 9 11 1
      ⟨1, 11, false, none, Tier.free⟩
      ⟨7, 1, 1, AppStatus.withdrawn, some "was withdrawn", none, some 3, 2⟩
      (by decide) rfl (Or.inr (by decide)) (by decide)).2 rfl
      ⟨1, 1, JobStatus.approved, none, some 0⟩ (by decide)
    rw [h.1]
    decide

/-- Without an approved job under the requested id, `applyToJob` can never
return the success outcome. -/
theorem applyToJob_no_approved_no_ok (st : Store) (now : Int)
    (userId jobId : Nat) (hj : findApprovedJob st jobId = none)
    (app : Application) (st2 : Store) :
    applyToJob st now userId jobId ≠ (ApplyOutcome.ok app, st2) := by
  unfold applyToJob
  repeat' split
  all_goals simp_all
  all_goals split <;> simp

/-- C10: `applyToJob` creates or reactivates an application only when an
approved job with the target id exists; when the admission guards pass and
the duplicate check does not fire but no approved job is found, the request
fails with the not-found outcome and the store is unchanged. -/
theorem applyToJob_requires_approved_job (st : Store) (now : Int)
    (userId jobId : Nat) :
    (∀ app st2, applyToJob st now userId jobId = (ApplyOutcome.ok app, st2) →
      ∃ job, findApprovedJob st jobId = some job) ∧
    (∀ student, findStudentByUserId st userId = some student →
      student.isHired = false →
      (student.subscriptionTier = Tier.paid ∨
        getActiveApplicationCount st student.id < 2) →
      (∀ existingApp,
        findExistingApplication st student.id jobId = some existingApp →
        existingApp.status = AppStatus.withdrawn) →
      findApprovedJob st jobId = none →
      applyToJob st now userId jobId = (ApplyOutcome.jobNotFound, st)) := by
  constructor
  · intro app st2 h
    cases hj : findApprovedJob st jobId with
    | some job => exact ⟨job, rfl⟩
    | none =>
      exact absurd h (applyToJob_no_approved_no_ok st now userId jobId hj
        app st2)
  · intro student hs hh hq hex hj
    have hqb : (!(student.subscriptionTier == Tier.paid) &&
        decide (getActiveApplicationCount st student.id ≥ 2)) = false := by
      rcases hq with h | h <;> simp [h]
    cases he : findExistingApplication st student.id jobId with
    | none => simp [applyToJob, hs, hh, hqb, he, hj]
    | some ex =>
      have hw := hex ex he
      simp [applyToJob, hs, hh, hqb, he, hw, hj]

/-- Concrete store for the C10 witness: student 1 (user 11), job 1 present
but still pending (never approved). -/
def StoreW10 : Store :=
  { students := [⟨1, 11, false, none, Tier.free⟩],
    companies := [⟨1, 21⟩],
    jobs := [⟨1, 1, JobStatus.pending, none, none⟩],
    applications := [],
    subs := [],
    plans := [],
    freeTierConfig := none,
    nextAppId := 10 }

/-- Witness for C10: applying to a pending (non-approved) job fails with
the not-found outcome and changes nothing. -/
theorem applyToJob_requires_approved_job_witness :
    findJobById StoreW10 1 = some ⟨1, 1, JobStatus.pending, none, none⟩ ∧
    findApprovedJob StoreW10 1 = none ∧
    applyToJob StoreW10 9 11 1 = (ApplyOutcome.jobNotFound, StoreW10) :=
  ⟨by decide, by decide,
    (applyToJob_requires_approved_job StoreW10 9 11 1).2
      ⟨1, 11, false, none, Tier.free⟩ (by decide) rfl
      (Or.inr (by decide))
      (by intro ex hx; simp [findExistingApplication, StoreW10] at hx)
      (by decide)⟩

/-- C4: a company `hired`/`rejected` action through `updateApplication`
succeeds exactly when the target application is `reviewed`; on any other
status the request fails with no state change; on success the row gets the
requested status with `reviewedAt = now`, and a hire additionally sets the
owning student's `isHired` flag. -/
theorem companyUpdateApplication_guard (st : Store) (now : Int)
    (userId appId : Nat) (act : AppStatus)
    (company : Company) (application : Application) (job : JobPosting)
    (hact : act = AppStatus.hired ∨ act = AppStatus.rejected)
    (hc : findCompanyByUserId st userId = some company)
    (ha : findAppById st appId = some application)
    (hj : findJobById st application.jobPostingId = some job)
    (hown : job.companyId = company.id) :
    (application.status ≠ AppStatus.reviewed →
      (companyUpdateApplication st now userId appId act).1 ≠
        CompanyUpdateAppOutcome.ok ∧
      (companyUpdateApplication st now userId appId act).2 = st) ∧
    (application.status = AppStatus.reviewed →
      (companyUpdateApplication st now userId appId act).1 =
        CompanyUpdateAppOutcome.ok ∧
      (companyUpdateApplication st now userId appId act).2.applications =
        st.applications.map (fun a =>
          if a.id = appId then { a with status := act, reviewedAt := some now }
          else a) ∧
      (act = AppStatus.hired →
        (companyUpdateApplication st now userId appId act).2.students =
          st.students.map (fun s =>
            if s.id = application.studentId then { s with isHired := true }
            else s)) ∧
      (act = AppStatus.rejected →
        (companyUpdateApplication st now userId appId act).2.students =
          st.students)) := by
  have hactb : (!(act == AppStatus.hired) && !(act == AppStatus.rejected)) =
      false := by
    rcases hact with h | h <;> simp [h]
  have happmap : ∀ lst : List Application, (lst.map (fun a =>
      if a.id == appId then { a with status := act, reviewedAt := some now }
      else a)) = lst.map (fun a =>
      if a.id = appId then { a with status := act, reviewedAt := some now }
      else a) := by
    intro lst
    apply List.map_congr_left
    intro a _
    by_cases h : a.id = appId <;> simp [h]
  have hstumap : ∀ lst : List Student, (lst.map (fun s =>
      if s.id == application.studentId then { s with isHired := true }
      else s)) = lst.map (fun s =>
      if s.id = application.studentId then { s with isHired := true }
      else s) := by
    intro lst
    apply List.map_congr_left
    intro s _
    by_cases h : s.id = application.studentId <;> simp [h]
  constructor
  · intro hne
    cases hst : application.status with
    | reviewed => exact absurd hst hne
    | pending =>
      constructor <;>
        simp [companyUpdateApplication, hactb, hc, ha, hj, hown, hst]
    | hired =>
      constructor <;>
        simp [companyUpdateApplication, hactb, hc, ha, hj, hown, hst]
    | rejected =>
      constructor <;>
        simp [companyUpdateApplication, hactb, hc, ha, hj, hown, hst]
    | withdrawn =>
      constructor <;>
        simp [companyUpdateApplication, hactb, hc, ha, hj, hown, hst]
  · intro hst
    rcases hact with hact1 | hact1
    · refine ⟨?_, ?_, ?_, ?_⟩ <;>
        simp [companyUpdateApplication, hactb, hc, ha, hj, hown, hst, hact1,
          happmap, hstumap]
    · refine ⟨?_, ?_, ?_, ?_⟩ <;>
        simp [companyUpdateApplication, hactb, hc, ha, hj, hown, hst, hact1,
          happmap, hstumap]

/-- Concrete store for the C4 witness: company 1 (user 21) owns job 1,
student 1 has a reviewed application (id 4) on it. -/
def StoreW4 : Store :=
  { students := [⟨1, 11, false, none, Tier.free⟩],
    companies := [⟨1, 21⟩],
    jobs := [⟨1, 1, JobStatus.approved, none, some 0⟩],
    applications := [⟨4, 1, 1, AppStatus.reviewed, none, none, some 2, 1⟩],
    subs := [],
    plans := [],
    freeTierConfig := none,
    nextAppId := 10 }

/-- Witness for C4: hiring the reviewed application succeeds and flips the
student's `isHired` flag. -/
theorem companyUpdateApplication_guard_witness :
    findAppById StoreW4 4 =
      some ⟨4, 1, 1, AppStatus.reviewed, none, none, some 2, 1⟩ ∧
    (companyUpdateApplication StoreW4 7 21 4 AppStatus.hired).1 =
      CompanyUpdateAppOutcome.ok ∧
    (companyUpdateApplication StoreW4 7 21 4 AppStatus.hired).2.students =
      [⟨1, 11, true, none, Tier.free⟩] := by
  have h := (companyUpdateApplication_guard StoreW4 7 21 4 AppStatus.hired
    ⟨1, 21⟩ ⟨4, 1, 1, AppStatus.reviewed, none, none, some 2, 1⟩
    ⟨1, 1, JobStatus.approved, none, some 0⟩
    (Or.inl rfl) (by decide) (by decide) (by decide) rfl).2 rfl
  refine ⟨by decide, h.1, ?_⟩
  rw [h.2.2.1 rfl]
  decide

/-- Counterexample store for C5: student 1 is on the paid tier but their
subscription expired long before `now = 10`; the referenced plan has the
finite limit 5 and the free-tier default is the hard fallback 2. -/
def CexStore5 : Store :=
  { students := [⟨1, 11, false, some 1, Tier.paid⟩],
    companies := [],
    jobs := [],
    applications := [],
    subs := [⟨1, 1, 1, 0, SubStatus.expired⟩],
    plans := [⟨1, some 5⟩],
    freeTierConfig := none,
    nextAppId := 10 }

/-- Counterexample for C5: the subscription is inactive, so the claim puts
this student in the "every other case" clause and predicts the free-tier
default 2 — but `getApplicationLimit` ignores `isActive` and still returns
the plan's limit 5. -/
theorem getApplicationLimit_inactive_counterexample :
    (checkSubscriptionStatus CexStore5 10 1).1.isActive = false ∧
    truthyMaxApplications CexStore5 ⟨1, 1, 1, 0, SubStatus.expired⟩ =
      some 5 ∧
    getFreeTierMaxApplications CexStore5 = 2 ∧
    getApplicationLimit CexStore5 1 = some 5 ∧
    getApplicationLimit CexStore5 1 ≠
      some (getFreeTierMaxApplications CexStore5) := by
  decide

/-- C5 (amended): `getApplicationLimit` keys on the stored
`subscriptionTier`, not on `isActive` — a paid-tier student whose current
subscription resolves a truthy plan `maxApplications` gets that limit
regardless of subscription activity, a paid-tier student with no resolvable
plan limit gets the unbounded limit, and everyone else (free tier or
missing student) gets the configured free-tier default. -/
theorem getApplicationLimit_by_tier (st : Store) (studentId : Nat) :
    (∀ student, findStudentById st studentId = some student →
      student.subscriptionTier = Tier.paid →
      (∀ subId sub m, student.currentSubscriptionId = some subId →
        findSubById st subId = some sub →
        truthyMaxApplications st sub = some m →
        getApplicationLimit st studentId = some m) ∧
      (∀ subId sub, student.currentSubscriptionId = some subId →
        findSubById st subId = some sub →
        truthyMaxApplications st sub = none →
        getApplicationLimit st studentId = none) ∧
      (∀ subId, student.currentSubscriptionId = some subId →
        findSubById st subId = none →
        getApplicationLimit st studentId = none) ∧
      (student.currentSubscriptionId = none →
        getApplicationLimit st studentId = none)) ∧
    (∀ student, findStudentById st studentId = some student →
      student.subscriptionTier = Tier.free →
      getApplicationLimit st studentId =
        some (getFreeTierMaxApplications st)) ∧
    (findStudentById st studentId = none →
      getApplicationLimit st studentId =
        some (getFreeTierMaxApplications st)) := by
  refine ⟨?_, ?_, ?_⟩
  · intro student hs htier
    refine ⟨?_, ?_, ?_, ?_⟩
    · intro subId sub m hcur hb hm
      simp [getApplicationLimit, hs, htier, hcur, hb, hm]
    · intro subId sub hcur hb hm
      simp [getApplicationLimit, hs, htier, hcur, hb, hm]
    · intro subId hcur hb
      simp [getApplicationLimit, hs, htier, hcur, hb]
    · intro hcur
      simp [getApplicationLimit, hs, htier, hcur]
  · intro student hs htier
    simp [getApplicationLimit, hs, htier]
  · intro hs
    simp [getApplicationLimit, hs]

/-- Witness for C5 (amended) reusing the counterexample store: the paid
tier wins over inactivity, yielding the plan limit 5. -/
theorem getApplicationLimit_by_tier_witness :
    findStudentById CexStore5 1 = some ⟨1, 11, false, some 1, Tier.paid⟩ ∧
    getApplicationLimit CexStore5 1 = some 5 :=
  ⟨by decide,
    ((getApplicationLimit_by_tier CexStore5 1).1
      ⟨1, 11, false, some 1, Tier.paid⟩ (by decide) rfl).1
      1 ⟨1, 1, 1, 0, SubStatus.expired⟩ 5 rfl (by decide) (by decide)⟩

/-- The admin `updateFields` patch always carries the requested status. -/
theorem adminJobUpdateFields_status (now : Int) (reqStatus : JobStatus)
    (reqReason : Option String) (j : JobPosting) :
    (adminJobUpdateFields now reqStatus reqReason j).status = reqStatus := by
  cases reqStatus <;> rfl

/-- The jobs collection after an admin `updateJob` on an existing job. -/
theorem adminUpdateJob_jobs (st : Store) (now : Int) (jobId : Nat)
    (reqStatus : JobStatus) (reqReason : Option String) (job : JobPosting)
    (hj : findJobById st jobId = some job) :
    (adminUpdateJob st now jobId reqStatus reqReason).2.jobs =
      st.jobs.map (fun j =>
        if j.id == jobId then adminJobUpdateFields now reqStatus reqReason j
        else j) := by
  simp only [adminUpdateJob, hj]
  split <;> rfl

/-- Counterexample store for C6: a single closed job owned by company 1. -/
def CexStore6 : Store :=
  { students := [],
    companies := [⟨1, 21⟩],
    jobs := [⟨1, 1, JobStatus.closed, none, none⟩],
    applications := [],
    subs := [],
    plans := [],
    freeTierConfig := none,
    nextAppId := 10 }

/-- Counterexample for C6: `closed` is claimed terminal with every exit
rejected, yet the admin `updateJob` happily moves the closed job to
`approved` (stamping `approvedAt`). -/
theorem adminUpdateJob_out_of_closed_counterexample :
    findJobById CexStore6 1 = some ⟨1, 1, JobStatus.closed, none, none⟩ ∧
    (adminUpdateJob CexStore6 5 1 JobStatus.approved none).1 =
      AdminUpdateJobOutcome.ok ∧
    findJobById (adminUpdateJob CexStore6 5 1 JobStatus.approved none).2 1 =
      some ⟨1, 1, JobStatus.approved, none, some 5⟩ := by
  decide

/-- C6 (amended): the company update operation does guard its status
branches — closing an already-closed or draft job and unpublishing a
non-approved job are rejected with the store unchanged — but the admin
update operation enforces no transition graph at all: for any existing job
and any requested status of the enum it succeeds and rewrites every row
with that id to the requested status, so out-of-graph transitions
(including transitions out of `closed`) are not rejected there. -/
theorem jobStatusTransition_guards (st : Store) (userId jobId : Nat)
    (company : Company) (job : JobPosting)
    (hc : findCompanyByUserId st userId = some company)
    (hj : findJobById st jobId = some job)
    (hown : job.companyId = company.id) :
    (job.status = JobStatus.closed →
      companyUpdateJobStatusPhase st userId jobId (some JobStatus.closed) =
        (CompanyUpdateJobOutcome.alreadyClosed, st)) ∧
    (job.status = JobStatus.draft →
      companyUpdateJobStatusPhase st userId jobId (some JobStatus.closed) =
        (CompanyUpdateJobOutcome.draftNotClosable, st)) ∧
    (job.status ≠ JobStatus.approved →
      companyUpdateJobStatusPhase st userId jobId
          (some JobStatus.unpublished) =
        (CompanyUpdateJobOutcome.unpublishNotApproved, st)) ∧
    (∀ now reqStatus reqReason,
      (adminUpdateJob st now jobId reqStatus reqReason).1 =
        AdminUpdateJobOutcome.ok ∧
      ∀ j2 ∈ (adminUpdateJob st now jobId reqStatus reqReason).2.jobs,
        j2.id = jobId → j2.status = reqStatus) := by
  refine ⟨?_, ?_, ?_, ?_⟩
  · intro hst
    simp [companyUpdateJobStatusPhase, hc, hj, hown, hst]
  · intro hst
    simp [companyUpdateJobStatusPhase, hc, hj, hown, hst]
  · intro hst
    simp [companyUpdateJobStatusPhase, hc, hj, hown, hst]
  · intro now reqStatus reqReason
    constructor
    · simp only [adminUpdateJob, hj]
      split <;> rfl
    · intro j2 hmem hid
      rw [adminUpdateJob_jobs st now jobId reqStatus reqReason job hj]
        at hmem
      rcases List.mem_map.mp hmem with ⟨j0, _, hj2⟩
      by_cases h0 : j0.id = jobId
      · rw [← hj2]
        simp [h0, adminJobUpdateFields_status]
      · rw [← hj2] at hid
        simp [h0] at hid

/-- Witness for C6 (amended): on the concrete closed job, the company
close request bounces while the admin request to `approved` succeeds. -/
theorem jobStatusTransition_guards_witness :
    findJobById CexStore6 1 = some ⟨1, 1, JobStatus.closed, none, none⟩ ∧
    companyUpdateJobStatusPhase CexStore6 21 1 (some JobStatus.closed) =
      (CompanyUpdateJobOutcome.alreadyClosed, CexStore6) ∧
    (adminUpdateJob CexStore6 5 1 JobStatus.approved none).1 =
      AdminUpdateJobOutcome.ok :=
  ⟨by decide,
    (jobStatusTransition_guards CexStore6 21 1 ⟨1, 21⟩
      ⟨1, 1, JobStatus.closed, none, none⟩ (by decide) (by decide) rfl).1
      rfl,
    ((jobStatusTransition_guards CexStore6 21 1 ⟨1, 21⟩
      ⟨1, 1, JobStatus.closed, none, none⟩ (by decide) (by decide) rfl).2.2.2
      5 JobStatus.approved none).1⟩

/-- Counterexample store for C7: application 1 was already rejected by the
admin. -/
def CexStore7 : Store :=
  { students := [⟨1, 11, false, none, Tier.free⟩],
    companies := [],
    jobs := [],
    applications :=
      [⟨1, 1, 1, AppStatus.rejected, some "bad fit", some "admin", none, 0⟩],
    subs := [],
    plans := [],
    freeTierConfig := none,
    nextAppId := 10 }

/-- Counterexample for C7: the claim allows `reviewed` only from `pending`,
but the admin controller happily reviews an already-rejected application,
stamping `reviewedAt` and clearing the rejection fields. -/
theorem adminUpdateApplication_from_rejected_counterexample :
    findAppById CexStore7 1 =
      some ⟨1, 1, 1, AppStatus.rejected, some "bad fit", some "admin",
        none, 0⟩ ∧
    (adminUpdateApplication CexStore7 5 1 AdminAppAction.reviewed none).1 =
      AdminUpdateAppOutcome.ok ∧
    findAppById
        (adminUpdateApplication CexStore7 5 1 AdminAppAction.reviewed
          none).2 1 =
      some ⟨1, 1, 1, AppStatus.reviewed, none, none, some 5, 0⟩ := by
  decide

/-- C7 (amended): the admin `updateApplication` refuses to act on
`withdrawn` and `hired` rows, but otherwise acts on any status (pending,
reviewed or rejected — not only pending): a review sets `reviewedAt = now`
and clears the rejection fields, a rejection stores the reason with source
`admin` and leaves `reviewedAt` untouched (hence still null when rejecting
a pending application). -/
theorem adminUpdateApplication_guard (st : Store) (now : Int) (appId : Nat)
    (application : Application) (reqReason : Option String)
    (ha : findAppById st appId = some application) :
    (application.status = AppStatus.withdrawn → ∀ action,
      adminUpdateApplication st now appId action reqReason =
        (AdminUpdateAppOutcome.withdrawnForbidden, st)) ∧
    (application.status = AppStatus.hired → ∀ action,
      adminUpdateApplication st now appId action reqReason =
        (AdminUpdateAppOutcome.hiredForbidden, st)) ∧
    (application.status ≠ AppStatus.withdrawn →
      application.status ≠ AppStatus.hired →
      (adminUpdateApplication st now appId AdminAppAction.reviewed
          reqReason) =
        (AdminUpdateAppOutcome.ok,
         { st with applications := st.applications.map (fun a =>
             if a.id = appId then
               { a with status := AppStatus.reviewed,
                        reviewedAt := some now,
                        rejectionReason := none,
                        rejectionSource := none }
             else a) }) ∧
      (adminUpdateApplication st now appId AdminAppAction.rejected
          reqReason) =
        (AdminUpdateAppOutcome.ok,
         { st with applications := st.applications.map (fun a =>
             if a.id = appId then
               { a with status := AppStatus.rejected,
                        rejectionReason := jsOrNull reqReason,
                        rejectionSource := some "admin" }
             else a) })) := by
  refine ⟨?_, ?_, ?_⟩
  · intro hst action
    simp [adminUpdateApplication, ha, hst]
  · intro hst action
    cases action <;> simp [adminUpdateApplication, ha, hst]
  · intro hw hh
    have hwb : (application.status == AppStatus.withdrawn) = false := by
      simp [hw]
    have hhb : (application.status == AppStatus.hired) = false := by
      simp [hh]
    constructor
    · have hmap : ∀ lst : List Application, (lst.map (fun a =>
          if a.id == appId then
            { a with status := AppStatus.reviewed, reviewedAt := some now,
                     rejectionReason := none, rejectionSource := none }
          else a)) = lst.map (fun a =>
          if a.id = appId then
            { a with status := AppStatus.reviewed, reviewedAt := some now,
                     rejectionReason := none, rejectionSource := none }
          else a) := by
        intro lst
        apply List.map_congr_left
        intro a _
        by_cases h : a.id = appId <;> simp [h]
      simp [adminUpdateApplication, ha, hwb, hhb, hmap]
    · have hmap : ∀ lst : List Application, (lst.map (fun a =>
          if a.id == appId then
            { a with status := AppStatus.rejected,
                     rejectionReason := jsOrNull reqReason,
                     rejectionSource := some "admin" }
          else a)) = lst.map (fun a =>
          if a.id = appId then
            { a with status := AppStatus.rejected,
                     rejectionReason := jsOrNull reqReason,
                     rejectionSource := some "admin" }
          else a) := by
        intro lst
        apply List.map_congr_left
        intro a _
        by_cases h : a.id = appId <;> simp [h]
      simp [adminUpdateApplication, ha, hwb, hhb, hmap]

/-- Witness for C7 (amended): reviewing a pending application stamps
`reviewedAt` and succeeds. -/
theorem adminUpdateApplication_guard_witness :
    findAppById StoreW2 1 =
      some ⟨1, 1, 1, AppStatus.pending, none, none, none, 0⟩ ∧
    adminUpdateApplication StoreW2 5 1 AdminAppAction.reviewed none =
      (AdminUpdateAppOutcome.ok,
       { StoreW2 with applications :=
          [⟨1, 1, 1, AppStatus.reviewed, none, none, some 5, 0⟩,
           ⟨2, 2, 1, AppStatus.reviewed, none, none, some 0, 0⟩,
           ⟨3, 3, 1, AppStatus.withdrawn, none, none, none, 0⟩,
           ⟨4, 4, 1, AppStatus.hired, none, none, some 0, 0⟩,
           ⟨5, 5, 1, AppStatus.rejected, some "no", none, none, 0⟩,
           ⟨6, 1, 2, AppStatus.pending, none, none, none, 0⟩] }) := by
  constructor
  · decide
  · have h := (adminUpdateApplication_guard StoreW2 5 1
      ⟨1, 1, 1, AppStatus.pending, none, none, none, 0⟩ none
      (by decide)).2.2 (by decide) (by decide)
    rw [h.1]
    decide

/-- Counterexample store for C8: student 1's subscription is `active` and
ends at day 11 — in the future of `now = 10`, i.e. `endDate` lies between
`now` and `now + GRACE_DAYS = 13`. -/
def CexStore8 : Store :=
  { students := [⟨1, 11, false, some 1, Tier.paid⟩],
    companies := [],
    jobs := [],
    applications := [],
    subs := [⟨1, 1, 1, 11, SubStatus.active⟩],
    plans := [⟨1, some 5⟩],
    freeTierConfig := none,
    nextAppId := 10 }

/-- Counterexample for C8: with `endDate = 11` strictly between `now = 10`
and `now + GRACE_DAYS = 13` the claim predicts `inGracePeriod = true`, but
the engine requires `endDate < now` and reports `false` (the subscription
is simply still active). -/
theorem inGracePeriod_future_endDate_counterexample :
    ((10 : Int) < 11 ∧ (11 : Int) < 10 + SUBSCRIPTION_GRACE_PERIOD_DAYS) ∧
    (checkSubscriptionStatus CexStore8 10 1).1.inGracePeriod = false ∧
    (checkSubscriptionStatus CexStore8 10 1).1.isActive = true := by
  decide

/-- C8 (amended): the grace window opens after expiry, not before it — for
every non-cancelled current subscription with
`endDate < now ≤ endDate + GRACE_DAYS`, `checkSubscriptionStatus` reports
`inGracePeriod = true`, and `isActive = true` when the stored status is
`active`. -/
theorem inGracePeriod_window (st : Store) (now : Int) (studentId subId : Nat)
    (student : Student) (sub : ActiveSubscription)
    (hs : findStudentById st studentId = some student)
    (hcur : student.currentSubscriptionId = some subId)
    (hb : findSubById st subId = some sub)
    (hnc : sub.status ≠ SubStatus.cancelled)
    (h1 : sub.endDate < now)
    (h2 : now ≤ toGracePeriodEnd sub.endDate) :
    (checkSubscriptionStatus st now studentId).1.inGracePeriod = true ∧
    (sub.status = SubStatus.active →
      (checkSubscriptionStatus st now studentId).1.isActive = true) := by
  have hncb : (sub.status == SubStatus.cancelled) = false := by
    simp [hnc]
  have hgrace : subInGracePeriod sub now = true := by
    simp [subInGracePeriod, h1, h2]
  constructor
  · simp only [checkSubscriptionStatus, hs, hcur, hb, hncb,
      Bool.false_eq_true, if_false]
    split <;> simp [hgrace]
  · intro hst
    have hact : subIsActive sub now = true := by
      simp [subIsActive, hst, hgrace]
    simp only [checkSubscriptionStatus, hs, hcur, hb, hncb,
      Bool.false_eq_true, if_false]
    split <;> simp [hact]

/-- Concrete store for the C8 witness: an active subscription one day past
its end date at `now = 10`, inside the three-day grace window. -/
def StoreW8 : Store :=
  { students := [⟨1, 11, false, some 1, Tier.paid⟩],
    companies := [],
    jobs := [],
    applications := [],
    subs := [⟨1, 1, 1, 9, SubStatus.active⟩],
    plans := [⟨1, some 5⟩],
    freeTierConfig := none,
    nextAppId := 10 }

/-- Witness for C8 (amended): one day past expiry the subscription is in
grace and still active. -/
theorem inGracePeriod_window_witness :
    findSubById StoreW8 1 = some ⟨1, 1, 1, 9, SubStatus.active⟩ ∧
    (checkSubscriptionStatus StoreW8 10 1).1.inGracePeriod = true ∧
    (checkSubscriptionStatus StoreW8 10 1).1.isActive = true := by
  have h := inGracePeriod_window StoreW8 10 1 1
    ⟨1, 11, false, some 1, Tier.paid⟩ ⟨1, 1, 1, 9, SubStatus.active⟩
    (by decide) rfl (by decide) (by decide) (by decide) (by decide)
  exact ⟨by decide, h.1, h.2 rfl⟩

/-- The subscription store is only ever rewritten by the lazy-expiry map;
every row of the successor store was either already present or carries the
`expired` status. -/
theorem checkSubscriptionStatus_subs_writes (st : Store) (now : Int)
    (studentId : Nat) :
    (checkSubscriptionStatus st now studentId).2.subs = st.subs ∨
    ∃ w, (checkSubscriptionStatus st now studentId).2.subs =
      st.subs.map (fun b =>
        if b.id == w then { b with status := SubStatus.expired } else b) := by
  unfold checkSubscriptionStatus
  repeat' split
  all_goals try exact Or.inl rfl
  all_goals dsimp only
  all_goals split
  all_goals first
    | exact Or.inl rfl
    | exact Or.inr ⟨_, rfl⟩

/-- Counterexample store for C9: student 1's subscription is `cancelled`
with `endDate = 0`, long before `now = 10`. -/
def CexStore9 : Store :=
  { students := [⟨1, 11, false, some 1, Tier.paid⟩],
    companies := [],
    jobs := [],
    applications := [],
    subs := [⟨1, 1, 1, 0, SubStatus.cancelled⟩],
    plans := [⟨1, some 5⟩],
    freeTierConfig := none,
    nextAppId := 10 }

/-- Counterexample for C9: the engine observes `isActive = false`, a stored
status that is not `expired`, and `endDate < now`, yet — because the
cancelled branch returns early — no store write happens: the subscription
stays `cancelled`. -/
theorem lazyExpiry_cancelled_counterexample :
    (checkSubscriptionStatus CexStore9 10 1).1.isActive = false ∧
    findSubById CexStore9 1 = some ⟨1, 1, 1, 0, SubStatus.cancelled⟩ ∧
    (SubStatus.cancelled ≠ SubStatus.expired ∧ (0 : Int) < 10) ∧
    (checkSubscriptionStatus CexStore9 10 1).2 = CexStore9 := by
  decide

/-- C9 (amended): for a non-cancelled current subscription observed with
`isActive = false`, stored status not `expired` and `endDate < now`,
`checkSubscriptionStatus` persists `expired` on exactly that subscription
as its only store write and reports the expired status; cancelled
subscriptions are returned untouched without the write; and the path is
monotonic — it never writes any status other than `expired`, so every row
of any successor store was either already present or is `expired`. -/
theorem lazyExpiry_write (st : Store) (now : Int) (studentId subId : Nat)
    (student : Student) (sub : ActiveSubscription)
    (hs : findStudentById st studentId = some student)
    (hcur : student.currentSubscriptionId = some subId)
    (hb : findSubById st subId = some sub) :
    (sub.status ≠ SubStatus.cancelled →
      subIsActive sub now = false →
      sub.status ≠ SubStatus.expired →
      sub.endDate < now →
      (checkSubscriptionStatus st now studentId).2 =
        { st with subs := st.subs.map (fun b =>
            if b.id = sub.id then { b with status := SubStatus.expired }
            else b) } ∧
      (checkSubscriptionStatus st now studentId).1.status =
        some SubStatus.expired) ∧
    (sub.status = SubStatus.cancelled →
      (checkSubscriptionStatus st now studentId).2 = st) ∧
    (∀ st2 now2 sid2 b,
      b ∈ (checkSubscriptionStatus st2 now2 sid2).2.subs →
      b ∈ st2.subs ∨ b.status = SubStatus.expired) := by
  refine ⟨?_, ?_, ?_⟩
  · intro hnc hia hne h1
    have hncb : (sub.status == SubStatus.cancelled) = false := by
      simp [hnc]
    have hneb : (sub.status == SubStatus.expired) = false := by
      simp [hne]
    have hmap : (st.subs.map (fun b =>
        if b.id == sub.id then { b with status := SubStatus.expired }
        else b)) = st.subs.map (fun b =>
        if b.id = sub.id then { b with status := SubStatus.expired }
        else b) := by
      apply List.map_congr_left
      intro b _
      by_cases h : b.id = sub.id <;> simp [h]
    constructor
    · simp [checkSubscriptionStatus, hs, hcur, hb, hncb, hia, hneb, h1,
        hmap]
    · simp [checkSubscriptionStatus, hs, hcur, hb, hncb, hia, hneb, h1]
  · intro hst
    simp [checkSubscriptionStatus, hs, hcur, hb, hst]
  · intro st2 now2 sid2 b hmem
    rcases checkSubscriptionStatus_subs_writes st2 now2 sid2 with h | ⟨w, h⟩
    · rw [h] at hmem
      exact Or.inl hmem
    · rw [h] at hmem
      rcases List.mem_map.mp hmem with ⟨b0, hb0, hbeq⟩
      by_cases h0 : b0.id = w
      · right
        rw [← hbeq]
        simp [h0]
      · left
        rw [← hbeq]
        simpa [h0] using hb0

/-- Concrete store for the C9 witness: an `active` subscription whose end
date 0 lies more than the grace window before `now = 10`. -/
def StoreW9 : Store :=
  { students := [⟨1, 11, false, some 1, Tier.paid⟩],
    companies := [],
    jobs := [],
    applications := [],
    subs := [⟨1, 1, 1, 0, SubStatus.expired⟩, ⟨2, 2, 2, 0, SubStatus.active⟩],
    plans := [⟨1, some 5⟩],
    freeTierConfig := none,
    nextAppId := 10 }

/-- Witness for C9 (amended): reading student 1's lapsed subscription
writes `expired` to exactly that row (here already expired, so the write is
a fixed point), and the monotonicity clause holds on the concrete store. -/
theorem lazyExpiry_write_witness :
    subIsActive ⟨1, 1, 1, 0, SubStatus.active⟩ 10 = false ∧
    (checkSubscriptionStatus StoreW9 10 1).2.subs =
      [⟨1, 1, 1, 0, SubStatus.expired⟩, ⟨2, 2, 2, 0, SubStatus.active⟩] ∧
    (⟨2, 2, 2, 0, SubStatus.active⟩ ∈ StoreW9.subs ∨
      ActiveSubscription.status ⟨2, 2, 2, 0, SubStatus.active⟩ =
        SubStatus.expired) := by
  refine ⟨by decide, by decide, ?_⟩
  exact (lazyExpiry_write StoreW9 10 1 1
    ⟨1, 11, false, some 1, Tier.paid⟩ ⟨1, 1, 1, 0, SubStatus.expired⟩
    (by decide) rfl (by decide)).2.2 StoreW9 10 1
    ⟨2, 2, 2, 0, SubStatus.active⟩ (by decide)

end Talent
